import Mathlib

/-!
Shallow embedding of `src/jump/sshproxy.py` (tunghauvan/devops-supporter):
the instance-inventory fetch with its user heuristic, the CSV cache store,
the interactive selector loop, and the nested-SSH connector.

Python dict values that may be `None` are modelled as `Option String`
(`none` = Python `None`).  Truthiness of a string (`if s:`) is `s ≠ ""`.
The boto3 / csv / subprocess collaborators are modelled as explicit inputs:
the describe-instances and describe-images calls as `Except` values (an
`Except.error` is a raised exception caught by the surrounding `try`), the
cache file as a parsed table of rows, and subprocess spawning as a returned
command vector.
-/

namespace SshProxy

/-- Boolean substring test on character lists ... mirrors Python `needle in hay`. -/
def listIsInfixOf (needle : List Char) : List Char → Bool
  | [] => needle.isEmpty
  | c :: rest => needle.isPrefixOf (c :: rest) || listIsInfixOf needle rest

/-- Python `needle in hay` for strings: substring containment. -/
def strContains (hay needle : String) : Bool :=
  listIsInfixOf needle.data hay.data

/-- Python `s.lower()` (ASCII case folding suffices for the keywords used
here). -/
def pyLower (s : String) : String :=
  ⟨s.data.map Char.toLower⟩

/-- The whitespace set Python `str.strip()` removes (ASCII part). -/
def isPySpace (c : Char) : Bool :=
  c = ' ' || c = '\t' || c = '\n' || c = '\r' || c = '\x0b' || c = '\x0c'

/-- Python `s.strip()`: drop leading and trailing whitespace. -/
def pyStrip (s : String) : String :=
  ⟨((s.data.dropWhile isPySpace).reverse.dropWhile isPySpace).reverse⟩

/-- Python `s.endswith(suffix)`. -/
def strEndsWith (s suffix : String) : Bool :=
  suffix.data.isSuffixOf s.data

/-- One instance as returned inside a reservation by `describe_instances`.
`none` models an absent key in the boto3 response dict. -/
structure ApiInstance where
  instanceId : Option String
  privateIpAddress : Option String
  keyName : Option String
  platformDetails : Option String
  imageId : Option String
  tags : List (String × String)
deriving Repr, DecidableEq

/-- A reservation: `reservation.get('Instances', [])`. -/
structure Reservation where
  instances : List ApiInstance
deriving Repr, DecidableEq

/-- The `describe_instances` response: `response.get('Reservations', [])`. -/
structure DescribeResponse where
  reservations : List Reservation
deriving Repr, DecidableEq

/-- One image of the `describe_images` response;
`img.get('Name', '')` / `img.get('Description', '')` defaults live at use sites. -/
structure ApiImage where
  imageId : String
  name : Option String
  description : Option String
deriving Repr, DecidableEq

/-- The record dict built per instance (sshproxy.py lines 64-73).  All eight
keys are always present; a value is `none` exactly when the Python value is
`None` (possible for `InstanceId` and `PrivateIpAddress`, which are stored
without a default). -/
structure InstanceRecord where
  instanceId : Option String
  name : Option String
  privateIpAddress : Option String
  keyName : Option String
  targetUser : Option String
  platformDetails : Option String
  imageId : Option String
  imageName : Option String
deriving Repr, DecidableEq

/-- `instance_name`: value of the first tag with key `Name`, else `N/A`
(lines 58-62). -/
def nameFromTags (tags : List (String × String)) : String :=
  match tags.find? (fun t => t.1 == "Name") with
  | some t => t.2
  | none => "N/A"

/-- `image_id or 'N/A'` (line 71): Python `or` replaces both `None` and the
empty string by the fallback. -/
def orNA : Option String → String
  | none => "N/A"
  | some s => if s = "" then "N/A" else s

/-- Coarse target-user guess from `PlatformDetails` alone (lines 52-56). -/
def coarseUser (platformDetails : String) : String :=
  if strContains (pyLower platformDetails) "ubuntu" then "ubuntu"
  else if strContains (pyLower platformDetails) "windows" then "Administrator"
  else "ec2-user"

/-- Build the per-instance record dict (lines 45-73).  `KeyName` defaults to
`N/A` and `PlatformDetails` to `Linux/UNIX` when absent. -/
def buildRecord (inst : ApiInstance) : InstanceRecord :=
  { instanceId := inst.instanceId
    name := some (nameFromTags inst.tags)
    privateIpAddress := inst.privateIpAddress
    keyName := some (inst.keyName.getD "N/A")
    targetUser := some (coarseUser (inst.platformDetails.getD "Linux/UNIX"))
    platformDetails := some (inst.platformDetails.getD "Linux/UNIX")
    imageId := some (orNA inst.imageId)
    imageName := some "N/A" }

/-- Refinement of the target user from lowercased AMI name/description
(lines 93-105).  `amiName` and `amiDesc` are the already-lowercased strings
`ami_name` and `ami_desc`; `u` is the current `TargetUser`. -/
def refineUser (u amiName amiDesc : String) : String :=
  if strContains amiName "ubuntu" || strContains amiDesc "ubuntu" then "ubuntu"
  else if strContains amiName "centos" || strContains amiDesc "centos" then "centos"
  else if strContains amiName "rhel" || strContains amiDesc "rhel" then "ec2-user"
  else if strContains amiName "fedora" || strContains amiDesc "fedora" then "fedora"
  else if strContains amiName "amzn2" || strContains amiDesc "amazon linux 2" then "ec2-user"
  else if strContains amiName "amazon linux ami" || strContains amiName "amzn-ami" then "ec2-user"
  else u

/-- `ami_info_map` (lines 83-84): image id to (name, description), with the
`''` defaults applied.  Later duplicates overwrite earlier ones in the Python
dict comprehension, hence the reversed lookup below. -/
def mkAmiMap (imgs : List ApiImage) : List (String × String × String) :=
  imgs.map (fun i => (i.imageId, i.name.getD "", i.description.getD ""))

/-- Dict lookup in `ami_info_map`; the last binding wins. -/
def amiLookup (m : List (String × String × String)) (k : String) :
    Option (String × String) :=
  match m.reverse.find? (fun e => e.1 == k) with
  | some e => some e.2
  | none => none

/-- The per-instance refinement step of the loop at lines 86-105: when the
record's image id is in `ami_info_map`, store the AMI name and refine the
target user from the lowercased name/description; otherwise leave the record
unchanged. -/
def applyRefine (m : List (String × String × String)) (rec : InstanceRecord) :
    InstanceRecord :=
  match amiLookup m (rec.imageId.getD "") with
  | none => rec
  | some nd =>
      { rec with
        imageName := some nd.1
        targetUser := some (refineUser (rec.targetUser.getD "") (pyLower nd.1) (pyLower nd.2)) }

/-- `get_running_ec2_instances` (lines 15-116).  The primary
`describe_instances` call and the batched `describe_images` call enter as
`Except` values; an `Except.error` is an exception caught by the
corresponding `try`.  A failed primary query yields `[]`; a failed image
lookup keeps the coarse guesses.  `describe_images` is only consulted when
some instance has a truthy image id (`if image_ids:`). -/
def get_running_ec2_instances (resp : Except String DescribeResponse)
    (imagesResp : Except String (List ApiImage)) : List InstanceRecord :=
  match resp with
  | .error _ => []
  | .ok r =>
      let insts := (r.reservations.map (fun v => v.instances)).flatten
      let recs := insts.map buildRecord
      let ids := (insts.filterMap (fun i => i.imageId)).filter (fun s => s ≠ "")
      if ids.isEmpty then recs
      else
        match imagesResp with
        | .error _ => recs
        | .ok imgs => recs.map (applyRefine (mkAmiMap imgs))

/-! ## Cache store (`load_or_fetch_instances`, lines 190-252)

The cache file is modelled at the level the `csv` standard library presents
it to this program: a parsed table, i.e. a list of rows of cell strings.
`csv.DictReader` takes the first row as the field names and turns every
further row into a dict; `csv.DictWriter` writes each record dict as one row
of cells, rendering a `None` value as the empty cell. -/

/-- An in-memory dict as produced by `csv.DictReader` or built by the fetch:
association list from key to value, `none` modelling Python `None`. -/
def Dict := List (String × Option String)
deriving Repr, DecidableEq

/-- `csv.DictReader` row construction: `dict(zip(fieldnames, row))`, with
missing cells filled by `restval` (`None`).  Cells beyond the field names go
under the non-string `restkey` and are dropped here (no claim exercises
them). -/
def dictZip : List String → List String → Dict
  | [], _ => []
  | k :: ks, [] => (k, none) :: dictZip ks []
  | k :: ks, v :: vs => (k, some v) :: dictZip ks vs

/-- Reading the parsed cache table the way lines 198-208 use `DictReader`:
no first row means `reader.fieldnames` is `None` (result `none`, the code
sets `running_instances = None`); otherwise `list(reader)` zips every data
row with the header row. -/
def csvDictRead : List (List String) → Option (List Dict)
  | [] => none
  | hdr :: rows => some (rows.map (fun row => dictZip hdr row))

/-- The fixed header written at line 232: `running_instances[0].keys()`, the
record dict's keys in construction order. -/
def cacheHeader : List String :=
  ["InstanceId", "Name", "PrivateIpAddress", "KeyName", "TargetUser",
   "PlatformDetails", "ImageId", "ImageName"]

/-- `csv.DictWriter` cell for one value: `None` is written as the empty
string, a string is written as itself. -/
def cellOfValue : Option String → String
  | none => ""
  | some s => s

/-- The row `DictWriter.writerow` emits for one record: its values in
`cacheHeader` order. -/
def recordToRow (r : InstanceRecord) : List String :=
  [cellOfValue r.instanceId, cellOfValue r.name, cellOfValue r.privateIpAddress,
   cellOfValue r.keyName, cellOfValue r.targetUser, cellOfValue r.platformDetails,
   cellOfValue r.imageId, cellOfValue r.imageName]

/-- `Cache.save` (lines 232-237): header row, then one row per record in the
given order.  Only ever called with a non-empty record list. -/
def cacheSave (recs : List InstanceRecord) : List (List String) :=
  cacheHeader :: recs.map recordToRow

/-- The record dict itself, as the Python program holds it in memory. -/
def recordToDict (r : InstanceRecord) : Dict :=
  [("InstanceId", r.instanceId), ("Name", r.name),
   ("PrivateIpAddress", r.privateIpAddress), ("KeyName", r.keyName),
   ("TargetUser", r.targetUser), ("PlatformDetails", r.platformDetails),
   ("ImageId", r.imageId), ("ImageName", r.imageName)]

/-- The on-disk state of the cache file: absent, or present with a parsed
table of rows. -/
inductive CacheFile where
  | absent
  | present (rows : List (List String))
deriving Repr, DecidableEq

/-- The cache-reading phase of `load_or_fetch_instances` (lines 190-224):
returns the `fetch_from_aws` flag paired with the `running_instances` value
at the end of that phase (`none` = Python `None`, set when the file has no
header row; the variable starts as `[]` and is untouched on the absent and
forced paths). -/
def load_or_fetch_cache_phase (file : CacheFile) (forceFetch : Bool) :
    Bool × Option (List Dict) :=
  if forceFetch then (true, some [])
  else
    match file with
    | .absent => (true, some [])
    | .present rows =>
        match csvDictRead rows with
        | none => (true, none)
        | some [] => (true, some [])
        | some (d :: ds) => (false, some (d :: ds))

/-! ## Selection handling (`__main__`, lines 310-347) -/

/-- `key_name_base` (line 317): the part of `KeyName` before the first `_`,
or `None` when `KeyName` is falsy (absent is read back as the default `''`)
or the literal `N/A`. -/
def key_name_base (rawKeyName : String) : Option String :=
  if rawKeyName ≠ "" ∧ rawKeyName ≠ "N/A" then
    some ⟨rawKeyName.data.takeWhile (fun c => c ≠ '_')⟩
  else none

/-- `remote_target_key_path` (line 318): the fixed remote directory template
around the base name; `None` when the base is `None` or falsy (empty). -/
def remote_target_key_path (rawKeyName : String) : Option String :=
  match key_name_base rawKeyName with
  | some b => if b = "" then none else some ("/home/ec2-user/keys/" ++ b ++ ".pem")
  | none => none

/-- What the selection branch (lines 320-347) does with one selected record:
each refusal constructor is one of the three diagnostic branches, carrying
the data its message interpolates; `connect` is the call to
`ssh_via_jump_host` with the derived remote key path. -/
inductive SelectionAction where
  | refuseNoPrivateIp
  | refuseNoTargetUser
  | refuseNoRemoteKey (rawKeyName : String)
  | connect (targetIp targetUser remoteKeyPath : String)
deriving Repr, DecidableEq

/-- Python truthiness of an optional string: `None` and `''` are falsy. -/
def truthy : Option String → Bool
  | none => false
  | some s => s ≠ ""

/-- The selected-instance dispatch (lines 313-347): check private IP, then
target user, then the derived remote key path, and only with all three
present hand off to the connector. -/
def selection_handling (targetIp : Option String) (rawKeyName : String)
    (targetUser : Option String) : SelectionAction :=
  if truthy targetIp = false then .refuseNoPrivateIp
  else if truthy targetUser = false then .refuseNoTargetUser
  else
    match remote_target_key_path rawKeyName with
    | none => .refuseNoRemoteKey rawKeyName
    | some p => .connect (targetIp.getD "") (targetUser.getD "") p

/-! ## Connector (`ssh_via_jump_host`, lines 119-179) -/

/-- The observable outcome of `ssh_via_jump_host` up to spawning: the two
refusal branches (no subprocess is started), or the spawned `ssh` argument
vector handed to `subprocess.run`. -/
inductive ConnectorResult where
  | refusedMissingParams (message : String)
  | refusedLocalKeyNotFound (path : String)
  | spawned (cmd : List String)
deriving Repr, DecidableEq

/-- The single fixed diagnostic printed at line 137 when any parameter is
falsy. -/
def missingParamsMessage : String :=
  "Error: Missing required SSH parameters (target IP/user, jump host IP/user, local key, remote key)."

/-- `ssh_via_jump_host` (lines 119-167).  Parameters are the six strings of
the call (a missing value is the empty string, falsy exactly like Python
`None` under `all`); `expandUser` models `os.path.expanduser` and
`fileExists` models `os.path.exists`, both external to this program.  The
validation gate (line 135) fires before any filesystem or subprocess work;
the command vector mirrors lines 148-158. -/
def ssh_via_jump_host (targetIp targetUser jumpHostIp jumpHostUser
    localJumpKeyPath remoteTargetKeyPath : String)
    (expandUser : String → String) (fileExists : String → Bool) :
    ConnectorResult :=
  if targetIp = "" ∨ targetUser = "" ∨ jumpHostIp = "" ∨ jumpHostUser = "" ∨
      localJumpKeyPath = "" ∨ remoteTargetKeyPath = "" then
    .refusedMissingParams missingParamsMessage
  else
    let lk := expandUser localJumpKeyPath
    if fileExists lk = false then .refusedLocalKeyNotFound lk
    else
      .spawned ["ssh", "-i", lk, "-t", jumpHostUser ++ "@" ++ jumpHostIp,
        "ssh -i " ++ remoteTargetKeyPath ++ " " ++ targetUser ++ "@" ++ targetIp]

/-! ## Interactive selector loop (`__main__`, lines 275-360) -/

/-- Python `dict.get(key, default)` on a record dict (value may still be
`None`). -/
def dictGet (d : Dict) (k : String) (dflt : Option String) : Option String :=
  match d.find? (fun e => e.1 == k) with
  | some e => e.2
  | none => dflt

/-- `str(value)` as interpolated by the display f-string: `None` prints as
`None`. -/
def pyStr : Option String → String
  | none => "None"
  | some s => s

/-- `display_instances` (lines 255-268): the lines printed; the instance
data is only read. -/
def display_instances (instances : List Dict) : List String :=
  if instances.isEmpty then ["No running instance data available."]
  else
    "\nRunning EC2 Instances:" ::
    (instances.enum.map (fun p =>
      "  [" ++ toString (p.1 + 1) ++ "] " ++ pyStr (dictGet p.2 "Name" (some "N/A")) ++
      " (" ++ pyStr (dictGet p.2 "InstanceId" (some "N/A")) ++ ") - IP: " ++
      pyStr (dictGet p.2 "PrivateIpAddress" (some "N/A")) ++ ", User: " ++
      pyStr (dictGet p.2 "TargetUser" (some "N/A")) ++ ", Key: " ++
      pyStr (dictGet p.2 "KeyName" (some "N/A")) ++ ", AMI: " ++
      pyStr (dictGet p.2 "ImageName" (some "N/A"))))

/-- The selector's state across loop iterations: the in-memory inventory
(`running_instances`) and the on-disk cache file. -/
structure LoopState where
  runningInstances : List Dict
  diskCache : CacheFile
deriving Repr, DecidableEq

/-- Whether one iteration leaves the loop (`break`) or continues. -/
inductive StepOutcome where
  | terminated
  | continued
deriving Repr, DecidableEq

/-- The display label built for instance `i` at line 280:
`[i+1] Name (InstanceId)`. -/
def choiceLabel (i : Nat) (d : Dict) : String :=
  "[" ++ toString (i + 1) ++ "] " ++ pyStr (dictGet d "Name" (some "N/A")) ++
  " (" ++ pyStr (dictGet d "InstanceId" (some "N/A")) ++ ")"

/-- `instance_map.get(user_input)` (lines 276-282, 310): the record whose
label equals the input, rebuilt from the current inventory each iteration. -/
def lookupChoice (instances : List Dict) (input : String) : Option Dict :=
  match instances.enum.find? (fun p => choiceLabel p.1 p.2 == input) with
  | some p => some p.2
  | none => none

/-- One iteration of the `while True` loop (lines 289-352), from the raw
prompt result to the next iteration's state.  The input is stripped first;
command keywords are matched on the lowercased text.  `refreshOutcome` is the
result of `load_or_fetch_instances(force_fetch=True)` together with the disk
state it leaves behind (that call talks to AWS and the filesystem, both
outside this step).  Selecting an instance hands one record to the
selection handling and returns to the prompt with inventory and cache
untouched; unknown text only prints a diagnostic. -/
def loopStep (s : LoopState) (rawInput : String)
    (refreshOutcome : List Dict × CacheFile) : StepOutcome × LoopState :=
  let input := pyStrip rawInput
  if input = "" then (.continued, s)
  else if pyLower input = "exit" ∨ pyLower input = "quit" then (.terminated, s)
  else if pyLower input = "refresh" then
    (.continued, { runningInstances := refreshOutcome.1, diskCache := refreshOutcome.2 })
  else if pyLower input = "list" then (.continued, s)
  else
    match lookupChoice s.runningInstances input with
    | some _ => (.continued, s)
    | none => (.continued, s)

/-- Bundles the condition "all eight dict values are strings, none is
`None`". -/
def allFieldsPopulated (r : InstanceRecord) : Bool :=
  r.instanceId.isSome && r.name.isSome && r.privateIpAddress.isSome &&
  r.keyName.isSome && r.targetUser.isSome && r.platformDetails.isSome &&
  r.imageId.isSome && r.imageName.isSome

/-! ## Helper lemmas -/

theorem coarseUser_ne_empty (p : String) : coarseUser p ≠ "" := by
  unfold coarseUser
  split
  · decide
  · split <;> decide

theorem refineUser_ne_empty (u n d : String) (hu : u ≠ "") :
    refineUser u n d ≠ "" := by
  unfold refineUser
  split
  · decide
  split
  · decide
  split
  · decide
  split
  · decide
  split
  · decide
  split
  · decide
  · exact hu

theorem buildRecord_targetUser (i : ApiInstance) :
    ∃ s, (buildRecord i).targetUser = some s ∧ s ≠ "" :=
  ⟨_, rfl, coarseUser_ne_empty _⟩

theorem applyRefine_buildRecord_targetUser (m : List (String × String × String))
    (i : ApiInstance) :
    ∃ s, (applyRefine m (buildRecord i)).targetUser = some s ∧ s ≠ "" := by
  unfold applyRefine
  rcases hm : amiLookup m ((buildRecord i).imageId.getD "") with _ | nd
  · simpa [hm] using buildRecord_targetUser i
  · simp only [hm]
    refine ⟨_, rfl, ?_⟩
    exact refineUser_ne_empty _ _ _ (coarseUser_ne_empty _)

theorem dictZip_cacheHeader_row (r : InstanceRecord)
    (h : allFieldsPopulated r = true) :
    dictZip cacheHeader (recordToRow r) = recordToDict r := by
  obtain ⟨i1, n1, p1, k1, t1, pd1, im1, inm1⟩ := r
  simp only [allFieldsPopulated, Bool.and_eq_true, Option.isSome_iff_exists] at h
  obtain ⟨⟨⟨⟨⟨⟨⟨⟨a, rfl⟩, b, rfl⟩, c, rfl⟩, d, rfl⟩, e, rfl⟩, f, rfl⟩, g, rfl⟩,
    h8, rfl⟩ := h
  rfl

theorem recordToDict_injective : Function.Injective recordToDict := by
  intro r1 r2 h
  obtain ⟨i1, n1, p1, k1, t1, pd1, im1, inm1⟩ := r1
  obtain ⟨i2, n2, p2, k2, t2, pd2, im2, inm2⟩ := r2
  simp only [recordToDict, List.cons.injEq, Prod.mk.injEq, true_and, and_true] at h
  obtain ⟨rfl, rfl, rfl, rfl, rfl, rfl, rfl, rfl⟩ := h
  rfl

/-! ## Claim theorems -/

/-- Claim C5: cache load on a nonexistent path, on an empty file, and on a
file containing only a header row all yield the needs-refresh signal
(`fetch_from_aws = true`) with no non-empty record list handed on, and no
error escapes (the phase is a total function); a present, parseable,
non-empty file yields `fetch_from_aws = false` and its records in file
order. -/
theorem cache_load_needs_refresh_signals (hdr row : List String)
    (rest : List (List String)) :
    load_or_fetch_cache_phase CacheFile.absent false = (true, some []) ∧
    load_or_fetch_cache_phase (CacheFile.present []) false = (true, none) ∧
    load_or_fetch_cache_phase (CacheFile.present [hdr]) false = (true, some []) ∧
    load_or_fetch_cache_phase (CacheFile.present (hdr :: row :: rest)) false
      = (false, some ((row :: rest).map (fun r => dictZip hdr r))) :=
  ⟨rfl, rfl, rfl, rfl⟩

/-- Claim C6: any error raised during the primary `describe_instances`
query makes `get_running_ec2_instances` return `[]` rather than propagate,
and that return value coincides with the one produced by a successful query
that found no instances, so the two cases are indistinguishable from the
return value alone. -/
theorem fetch_error_empty_indistinguishable (e : String)
    (imagesResp : Except String (List ApiImage)) :
    get_running_ec2_instances (Except.error e) imagesResp = [] ∧
    get_running_ec2_instances (Except.ok ⟨[]⟩) imagesResp = [] :=
  ⟨rfl, rfl⟩

/-- Claim C8: in the selector loop, the inputs `list` and `` (empty) leave
the whole loop state - the in-memory inventory and the on-disk cache file -
unchanged and return to the prompt, whatever the state and whatever a
refresh would have produced. -/
theorem list_and_empty_inputs_leave_state_unchanged (s : LoopState)
    (refreshOutcome : List Dict × CacheFile) :
    loopStep s "list" refreshOutcome = (StepOutcome.continued, s) ∧
    loopStep s "" refreshOutcome = (StepOutcome.continued, s) :=
  ⟨rfl, rfl⟩

/-- Claim C2, counterexample: with only the target address missing and with
only the jump user missing, `ssh_via_jump_host` prints the very same fixed
diagnostic, so the diagnostic does not name the specific missing field -
contradicting the claim that it does. -/
theorem missing_param_diagnostic_identical_across_fields :
    ssh_via_jump_host "" "ubuntu" "172.31.12.76" "ec2-user" "~/.ssh/id_ed25519"
        "/home/ec2-user/keys/mykey.pem" (fun s => s) (fun _ => true)
      = ConnectorResult.refusedMissingParams missingParamsMessage ∧
    ssh_via_jump_host "10.0.1.5" "ubuntu" "172.31.12.76" "" "~/.ssh/id_ed25519"
        "/home/ec2-user/keys/mykey.pem" (fun s => s) (fun _ => true)
      = ConnectorResult.refusedMissingParams missingParamsMessage :=
  ⟨rfl, rfl⟩

/-- Claim C2, amended: whenever any of the six required values is missing,
the connector spawns no subprocess and logs/reports the single fixed
generic diagnostic listing all parameter categories; it does not name the
specific missing field(s). -/
theorem missing_params_refused_with_generic_message
    (tIp tUser jIp jUser lKey rKey : String)
    (eu : String → String) (fe : String → Bool)
    (h : tIp = "" ∨ tUser = "" ∨ jIp = "" ∨ jUser = "" ∨ lKey = "" ∨ rKey = "") :
    ssh_via_jump_host tIp tUser jIp jUser lKey rKey eu fe
      = ConnectorResult.refusedMissingParams missingParamsMessage := by
  unfold ssh_via_jump_host
  rw [if_pos h]

/-- Witness for the amended C2 theorem at a concrete call with the target
address missing. -/
theorem missing_params_refused_with_generic_message_witness :
    ssh_via_jump_host "" "ubuntu" "172.31.12.76" "ec2-user" "~/.ssh/id_ed25519"
        "/home/ec2-user/keys/mykey.pem" (fun s => s) (fun _ => true)
      = ConnectorResult.refusedMissingParams missingParamsMessage :=
  missing_params_refused_with_generic_message "" "ubuntu" "172.31.12.76" "ec2-user"
    "~/.ssh/id_ed25519" "/home/ec2-user/keys/mykey.pem" (fun s => s) (fun _ => true)
    (Or.inl rfl)

/-- Claim C7: for key identifier `mykey_prod` the derived remote key path is
the text before the first underscore placed in the fixed remote directory
template, hence ends in `mykey.pem`; for the key identifier absent (read
back as the empty default) or the literal `N/A`, the derived path is `None`
and the selection is refused on the missing-key branch, so no connection is
attempted. -/
theorem derived_remote_key_path_cases (ip user : Option String)
    (hip : truthy ip = true) (huser : truthy user = true) :
    (remote_target_key_path "mykey_prod" = some "/home/ec2-user/keys/mykey.pem" ∧
      strEndsWith "/home/ec2-user/keys/mykey.pem" "mykey.pem" = true) ∧
    (remote_target_key_path "N/A" = none ∧
      selection_handling ip "N/A" user = SelectionAction.refuseNoRemoteKey "N/A") ∧
    (remote_target_key_path "" = none ∧
      selection_handling ip "" user = SelectionAction.refuseNoRemoteKey "") := by
  have hna : remote_target_key_path "N/A" = none := by decide
  have hem : remote_target_key_path "" = none := by decide
  refine ⟨⟨by decide, by decide⟩, ⟨hna, ?_⟩, ⟨hem, ?_⟩⟩ <;>
    simp [selection_handling, hip, huser, hna, hem]

/-- Witness for C7 at a concrete selected record with address and user
present. -/
theorem derived_remote_key_path_cases_witness :
    truthy (some "10.0.0.9") = true ∧ truthy (some "ec2-user") = true ∧
    ((remote_target_key_path "mykey_prod" = some "/home/ec2-user/keys/mykey.pem" ∧
      strEndsWith "/home/ec2-user/keys/mykey.pem" "mykey.pem" = true) ∧
    (remote_target_key_path "N/A" = none ∧
      selection_handling (some "10.0.0.9") "N/A" (some "ec2-user")
        = SelectionAction.refuseNoRemoteKey "N/A") ∧
    (remote_target_key_path "" = none ∧
      selection_handling (some "10.0.0.9") "" (some "ec2-user")
        = SelectionAction.refuseNoRemoteKey "")) :=
  ⟨by decide, by decide,
    derived_remote_key_path_cases (some "10.0.0.9") (some "ec2-user")
      (by decide) (by decide)⟩

/-- Claim C10: a key identifier beginning with the underscore delimiter,
such as `_prod`, has the empty string before its first underscore; the
derived remote key path is then `None` - no path is built from the empty
base name - and the selection is refused on the same missing-key branch
used for an absent or `N/A` key identifier, never reaching the connector. -/
theorem underscore_prefixed_key_name_refused (ip user : Option String)
    (hip : truthy ip = true) (huser : truthy user = true) :
    key_name_base "_prod" = some "" ∧
    remote_target_key_path "_prod" = none ∧
    selection_handling ip "_prod" user = SelectionAction.refuseNoRemoteKey "_prod" ∧
    (∀ a b c, selection_handling ip "_prod" user ≠ SelectionAction.connect a b c) := by
  have hp : remote_target_key_path "_prod" = none := by decide
  refine ⟨by decide, hp, ?_, ?_⟩ <;>
    simp [selection_handling, hip, huser, hp]

/-- Witness for C10 at a concrete selected record with address and user
present. -/
theorem underscore_prefixed_key_name_refused_witness :
    truthy (some "10.0.0.9") = true ∧ truthy (some "ec2-user") = true ∧
    (key_name_base "_prod" = some "" ∧
    remote_target_key_path "_prod" = none ∧
    selection_handling (some "10.0.0.9") "_prod" (some "ec2-user")
      = SelectionAction.refuseNoRemoteKey "_prod" ∧
    (∀ a b c, selection_handling (some "10.0.0.9") "_prod" (some "ec2-user")
      ≠ SelectionAction.connect a b c)) :=
  ⟨by decide, by decide,
    underscore_prefixed_key_name_refused (some "10.0.0.9") (some "ec2-user")
      (by decide) (by decide)⟩

/-- Claim C9: every record produced by `get_running_ec2_instances` carries a
non-empty target login user: the coarse pass always writes one of the
platform-based fallbacks and the refinement pass only ever replaces it with
another non-empty value. -/
theorem fetched_target_user_nonempty (resp : Except String DescribeResponse)
    (imagesResp : Except String (List ApiImage)) (rec : InstanceRecord)
    (h : rec ∈ get_running_ec2_instances resp imagesResp) :
    ∃ s, rec.targetUser = some s ∧ s ≠ "" := by
  cases resp with
  | error e => simp [get_running_ec2_instances] at h
  | ok r =>
      unfold get_running_ec2_instances at h
      dsimp only at h
      split at h
      · obtain ⟨i, _, rfl⟩ := List.mem_map.1 h
        exact buildRecord_targetUser i
      · split at h
        · obtain ⟨i, _, rfl⟩ := List.mem_map.1 h
          exact buildRecord_targetUser i
        · rw [List.map_map] at h
          obtain ⟨i, _, rfl⟩ := List.mem_map.1 h
          exact applyRefine_buildRecord_targetUser _ i

/-- Witness for C9 at a one-instance fetch. -/
theorem fetched_target_user_nonempty_witness :
    (⟨some "i-1", some "N/A", some "10.0.0.1", some "mykey", some "ec2-user",
        some "Linux/UNIX", some "N/A", some "N/A"⟩ : InstanceRecord) ∈
      get_running_ec2_instances
        (Except.ok ⟨[⟨[⟨some "i-1", some "10.0.0.1", some "mykey",
          some "Linux/UNIX", none, []⟩]⟩]⟩) (Except.ok []) ∧
    ∃ s, (⟨some "i-1", some "N/A", some "10.0.0.1", some "mykey", some "ec2-user",
        some "Linux/UNIX", some "N/A", some "N/A"⟩ : InstanceRecord).targetUser
      = some s ∧ s ≠ "" :=
  ⟨by decide,
    fetched_target_user_nonempty
      (Except.ok ⟨[⟨[⟨some "i-1", some "10.0.0.1", some "mykey",
        some "Linux/UNIX", none, []⟩]⟩]⟩) (Except.ok []) _ (by decide)⟩

/-- Claim C1, counterexample: an instance whose platform is `Windows` and
whose image has empty name and description `amzn2` falsifies the claim: the
lowercased concatenation of name and description contains `amzn2`, yet the
resolver leaves the target user at `Administrator` because the code checks
`amzn2` only against the image name (and `amzn-ami` of rule 7 likewise, as
the second input with description `amzn-ami` shows). -/
theorem amzn_keywords_in_description_only_keep_coarse_user :
    strContains (pyLower ("" ++ "amzn2")) "amzn2" = true ∧
    (get_running_ec2_instances
        (Except.ok ⟨[⟨[⟨some "i-09", some "10.0.0.9", some "key1", some "Windows",
          some "ami-1", []⟩]⟩]⟩)
        (Except.ok [⟨"ami-1", some "", some "amzn2"⟩])).map (fun r => r.targetUser)
      = [some "Administrator"] ∧
    strContains (pyLower ("" ++ "amzn-ami")) "amzn-ami" = true ∧
    (get_running_ec2_instances
        (Except.ok ⟨[⟨[⟨some "i-09", some "10.0.0.9", some "key1", some "Windows",
          some "ami-1", []⟩]⟩]⟩)
        (Except.ok [⟨"ami-1", some "", some "amzn-ami"⟩])).map (fun r => r.targetUser)
      = [some "Administrator"] ∧
    ("Administrator" : String) ≠ "ec2-user" := by
  refine ⟨by decide, by decide, by decide, by decide, by decide⟩

/-- Claim C1, amended: the refinement rules are ordered with first match
winning and each comparison is a case-insensitive substring match against an
individual field, not the concatenation: rule 6 fires when the image name
contains `amzn2` or the image description contains `amazon linux 2`; rule 7
fires only when the image name contains `amazon linux ami` or `amzn-ami`
(the description is not consulted); when no rule fires the coarse user is
kept. -/
theorem amzn_rules_check_fields_separately (u nm ds : String)
    (h1 : strContains (pyLower nm) "ubuntu" = false)
    (h2 : strContains (pyLower ds) "ubuntu" = false)
    (h3 : strContains (pyLower nm) "centos" = false)
    (h4 : strContains (pyLower ds) "centos" = false)
    (h5 : strContains (pyLower nm) "rhel" = false)
    (h6 : strContains (pyLower ds) "rhel" = false)
    (h7 : strContains (pyLower nm) "fedora" = false)
    (h8 : strContains (pyLower ds) "fedora" = false) :
    ((strContains (pyLower nm) "amzn2" || strContains (pyLower ds) "amazon linux 2") = true →
      refineUser u (pyLower nm) (pyLower ds) = "ec2-user") ∧
    (strContains (pyLower nm) "amzn2" = false →
      strContains (pyLower ds) "amazon linux 2" = false →
      (strContains (pyLower nm) "amazon linux ami" ||
        strContains (pyLower nm) "amzn-ami") = true →
      refineUser u (pyLower nm) (pyLower ds) = "ec2-user") ∧
    (strContains (pyLower nm) "amzn2" = false →
      strContains (pyLower ds) "amazon linux 2" = false →
      strContains (pyLower nm) "amazon linux ami" = false →
      strContains (pyLower nm) "amzn-ami" = false →
      refineUser u (pyLower nm) (pyLower ds) = u) := by
  refine ⟨?_, ?_, ?_⟩
  · intro ha
    simp [refineUser, h1, h2, h3, h4, h5, h6, h7, h8, ha]
  · intro ha hb hc
    simp [refineUser, h1, h2, h3, h4, h5, h6, h7, h8, ha, hb, hc]
  · intro ha hb hc hd
    simp [refineUser, h1, h2, h3, h4, h5, h6, h7, h8, ha, hb, hc, hd]

/-- Witness for the amended C1 theorem on a concrete Amazon Linux 2 image
name. -/
theorem amzn_rules_check_fields_separately_witness :
    ((strContains (pyLower "amzn2-img") "amzn2" ||
      strContains (pyLower "plain") "amazon linux 2") = true →
      refineUser "Administrator" (pyLower "amzn2-img") (pyLower "plain") = "ec2-user") ∧
    (strContains (pyLower "amzn2-img") "amzn2" = false →
      strContains (pyLower "plain") "amazon linux 2" = false →
      (strContains (pyLower "amzn2-img") "amazon linux ami" ||
        strContains (pyLower "amzn2-img") "amzn-ami") = true →
      refineUser "Administrator" (pyLower "amzn2-img") (pyLower "plain") = "ec2-user") ∧
    (strContains (pyLower "amzn2-img") "amzn2" = false →
      strContains (pyLower "plain") "amazon linux 2" = false →
      strContains (pyLower "amzn2-img") "amazon linux ami" = false →
      strContains (pyLower "amzn2-img") "amzn-ami" = false →
      refineUser "Administrator" (pyLower "amzn2-img") (pyLower "plain") = "Administrator") :=
  amzn_rules_check_fields_separately "Administrator" "amzn2-img" "plain"
    (by decide) (by decide) (by decide) (by decide)
    (by decide) (by decide) (by decide) (by decide)

/-- Claim C3: an instance whose platform description contains `windows`
(coarse guess `Administrator`) whose batched image lookup succeeds and whose
image description contains `ubuntu` ends up with target user `ubuntu`: the
refinement pass, running after the coarse pass, overrides the coarse guess
whenever the image metadata is present and matches a rule. -/
theorem windows_platform_ubuntu_image_final_user_ubuntu
    (inst : ApiInstance) (imgs : List ApiImage) (iid nm ds : String)
    (hwin : strContains (pyLower (inst.platformDetails.getD "Linux/UNIX")) "windows" = true)
    (hnub : strContains (pyLower (inst.platformDetails.getD "Linux/UNIX")) "ubuntu" = false)
    (hiid : inst.imageId = some iid) (hne : iid ≠ "")
    (hmap : amiLookup (mkAmiMap imgs) iid = some (nm, ds))
    (hdesc : strContains (pyLower ds) "ubuntu" = true) :
    coarseUser (inst.platformDetails.getD "Linux/UNIX") = "Administrator" ∧
    get_running_ec2_instances (Except.ok ⟨[⟨[inst]⟩]⟩) (Except.ok imgs)
      = [applyRefine (mkAmiMap imgs) (buildRecord inst)] ∧
    (applyRefine (mkAmiMap imgs) (buildRecord inst)).targetUser = some "ubuntu" := by
  refine ⟨?_, ?_, ?_⟩
  · simp [coarseUser, hwin, hnub]
  · simp [get_running_ec2_instances, hiid, hne]
  · have himg : (buildRecord inst).imageId.getD "" = iid := by
      simp [buildRecord, hiid, orNA, hne]
    simp [applyRefine, himg, hmap, refineUser, hdesc]

/-- Witness for C3 at a concrete Windows instance whose image description
mentions Ubuntu. -/
theorem windows_platform_ubuntu_image_final_user_ubuntu_witness :
    coarseUser ((⟨some "i-1", some "10.0.0.1", some "k", some "Windows",
        some "ami-1", []⟩ : ApiInstance).platformDetails.getD "Linux/UNIX")
      = "Administrator" ∧
    get_running_ec2_instances
        (Except.ok ⟨[⟨[⟨some "i-1", some "10.0.0.1", some "k", some "Windows",
          some "ami-1", []⟩]⟩]⟩)
        (Except.ok [⟨"ami-1", some "", some "Ubuntu 22.04 LTS"⟩])
      = [applyRefine (mkAmiMap [⟨"ami-1", some "", some "Ubuntu 22.04 LTS"⟩])
          (buildRecord ⟨some "i-1", some "10.0.0.1", some "k", some "Windows",
            some "ami-1", []⟩)] ∧
    (applyRefine (mkAmiMap [⟨"ami-1", some "", some "Ubuntu 22.04 LTS"⟩])
        (buildRecord ⟨some "i-1", some "10.0.0.1", some "k", some "Windows",
          some "ami-1", []⟩)).targetUser = some "ubuntu" :=
  windows_platform_ubuntu_image_final_user_ubuntu
    ⟨some "i-1", some "10.0.0.1", some "k", some "Windows", some "ami-1", []⟩
    [⟨"ami-1", some "", some "Ubuntu 22.04 LTS"⟩] "ami-1" "" "Ubuntu 22.04 LTS"
    (by decide) (by decide) rfl (by decide) (by decide) (by decide)

/-- Claim C4: saving a non-empty sequence of records whose dict values are
all strings and loading it back yields the same sequence of record dicts in
the same order; `recordToDict` is injective, so equal dict sequences mean
equal record sequences. -/
theorem cache_save_load_roundtrip (recs : List InstanceRecord)
    (hne : recs ≠ [])
    (hpop : ∀ r ∈ recs, allFieldsPopulated r = true) :
    csvDictRead (cacheSave recs) = some (recs.map recordToDict) ∧
    Function.Injective recordToDict := by
  refine ⟨?_, recordToDict_injective⟩
  show some ((recs.map recordToRow).map (fun row => dictZip cacheHeader row))
    = some (recs.map recordToDict)
  rw [List.map_map]
  congr 1
  exact List.map_congr_left (fun r hr => dictZip_cacheHeader_row r (hpop r hr))

/-- Witness for C4 on a one-record cache with every field a string. -/
theorem cache_save_load_roundtrip_witness :
    ([(⟨some "i-1", some "web", some "10.0.0.1", some "mykey_prod",
        some "ec2-user", some "Linux/UNIX", some "ami-1", some "amzn2-ami-hvm"⟩
        : InstanceRecord)] ≠ [] ∧
      ∀ r ∈ [(⟨some "i-1", some "web", some "10.0.0.1", some "mykey_prod",
        some "ec2-user", some "Linux/UNIX", some "ami-1", some "amzn2-ami-hvm"⟩
        : InstanceRecord)], allFieldsPopulated r = true) ∧
    (csvDictRead (cacheSave [(⟨some "i-1", some "web", some "10.0.0.1",
        some "mykey_prod", some "ec2-user", some "Linux/UNIX", some "ami-1",
        some "amzn2-ami-hvm"⟩ : InstanceRecord)])
      = some ([(⟨some "i-1", some "web", some "10.0.0.1", some "mykey_prod",
        some "ec2-user", some "Linux/UNIX", some "ami-1", some "amzn2-ami-hvm"⟩
        : InstanceRecord)].map recordToDict) ∧
      Function.Injective recordToDict) :=
  ⟨⟨by decide, by decide⟩,
    cache_save_load_roundtrip
      [⟨some "i-1", some "web", some "10.0.0.1", some "mykey_prod",
        some "ec2-user", some "Linux/UNIX", some "ami-1", some "amzn2-ami-hvm"⟩]
      (by decide) (by decide)⟩

end SshProxy
